import Mathlib

set_option maxRecDepth 8000

namespace SpeechModulation

/-! Shallow embedding of the audio core of the Speech-Modulation app
(src/App.tsx together with the voice tables of src/components/VoiceSelector.tsx).
Audio-clock times are modeled as exact rationals, byte buffers as lists of
naturals below 256, and the React refs nextStartTimeRef and sourcesRef as an
explicit scheduler state record threaded through the handlers. -/

/-- State of the live-session playback scheduler: the fields model
nextStartTimeRef.current and sourcesRef.current (App.tsx lines 38-39), plus a
counter handing out fresh ids for the nodes returned by ctx.createBufferSource
(App.tsx line 116). -/
structure SchedulerState where
  nextStartTime : ℚ
  activeSources : List ℕ
  nextSourceId  : ℕ

/-- Zeroed scheduler state, as produced by the ref initializers at
App.tsx lines 38-39: cursor 0 and an empty source set. -/
def initState : SchedulerState := ⟨0, [], 0⟩

/-- Model of JavaScript Set.add on the source set: append the handle when it is
not already present (insertion order preserved, as for a JS Set). -/
def setAdd (l : List ℕ) (id : ℕ) : List ℕ :=
  if id ∈ l then l else l ++ [id]

/-- Scheduling step of the onmessage handler (App.tsx lines 114-121): clamp the
cursor up to the current device time, start the freshly created source at the
clamped cursor, advance the cursor by the decoded unit duration, and add the
source handle to the set. Returns the start time passed to source.start
together with the updated state. -/
def scheduleNext (st : SchedulerState) (duration currentDeviceTime : ℚ) :
    ℚ × SchedulerState :=
  let cursor := max st.nextStartTime currentDeviceTime
  (cursor,
    { nextStartTime := cursor + duration
      activeSources := setAdd st.activeSources st.nextSourceId
      nextSourceId  := st.nextSourceId + 1 })

/-- Iterated scheduling: run scheduleNext over a list of
(duration, currentDeviceTime) pairs, collecting the returned start times. -/
def scheduleAll : SchedulerState → List (ℚ × ℚ) → List ℚ × SchedulerState
  | st, [] => ([], st)
  | st, (d, t) :: rest =>
    let step := scheduleNext st d t
    let restRun := scheduleAll step.2 rest
    (step.1 :: restRun.1, restRun.2)

/-- Running partial sums: the k-th element is c plus the sum of the first
k - 1 durations. -/
def runningSums : ℚ → List ℚ → List ℚ
  | _, [] => []
  | c, d :: ds => c :: runningSums (c + d) ds

/-- Hypothesis of the scheduling invariant: starting from cursor value c, every
call sees a currentDeviceTime that is at most the cursor value at that call. -/
def devTimesOk : ℚ → List (ℚ × ℚ) → Prop
  | _, [] => True
  | c, (d, t) :: rest => t ≤ c ∧ devTimesOk (max c t + d) rest

/-- Natural completion of a scheduled source. The onmessage handler
(App.tsx lines 116-121) installs no onended handler on the created source
node, so playback finishing fires the default null handler and leaves the
component refs unchanged; in particular the handle stays in the source set. -/
def sourceEnded (st : SchedulerState) (_id : ℕ) : SchedulerState := st

/-- Behavior of source.stop() for one handle: raises when the underlying stop
call fails for that handle (stopThrows), succeeds otherwise. -/
def stopSource (stopThrows : ℕ → Bool) (id : ℕ) : Except String Unit :=
  if stopThrows id then Except.error ("InvalidStateError") else Except.ok ()

/-- One iteration body of the teardown loop (App.tsx line 92): the stop call is
wrapped in try/catch with an empty catch block, so a failure is swallowed. -/
def tryStopSource (stopThrows : ℕ → Bool) (id : ℕ) : Except String Unit :=
  match stopSource stopThrows id with
  | Except.ok _ => Except.ok ()
  | Except.error _ => Except.ok ()

/-- Model of sourcesRef.current.forEach over the stop loop, propagating any
exception an iteration would raise. -/
def forEachStop (stopThrows : ℕ → Bool) : List ℕ → Except String Unit
  | [] => Except.ok ()
  | id :: rest =>
    match tryStopSource stopThrows id with
    | Except.ok _ => forEachStop stopThrows rest
    | Except.error e => Except.error e

/-- Teardown stopLiveSession (App.tsx lines 90-96): stop every active source
with each stop wrapped in try/catch, clear the set, and zero the cursor. The
stop behavior of each handle is given by stopThrows; the session-ref close and
the status update touch no scheduler state and are outside this model. -/
def stopLiveSession (stopThrows : ℕ → Bool) (st : SchedulerState) :
    Except String SchedulerState :=
  match forEachStop stopThrows st.activeSources with
  | Except.error e => Except.error e
  | Except.ok _ =>
    Except.ok
      { nextStartTime := 0
        activeSources := []
        nextSourceId  := st.nextSourceId }

/-- Byte write of DataView.setUint8 at a given offset (values are taken
modulo 256, matching the uint8 conversion). -/
def setUint8 (buf : List ℕ) (off v : ℕ) : List ℕ :=
  buf.set off (v % 256)

/-- Little-endian DataView.setUint16: low byte first. -/
def setUint16LE (buf : List ℕ) (off v : ℕ) : List ℕ :=
  (buf.set off (v % 256)).set (off + 1) (v / 256 % 256)

/-- Little-endian DataView.setUint32: four bytes, least significant first
(the uint32 truncation is absorbed by the per-byte reductions modulo 256). -/
def setUint32LE (buf : List ℕ) (off v : ℕ) : List ℕ :=
  ((((buf.set off (v % 256)).set (off + 1) (v / 256 % 256)).set
      (off + 2) (v / 65536 % 256)).set (off + 3) (v / 16777216 % 256))

/-- Loop body of writeString (App.tsx lines 197-199): write the character
codes of a string one byte at a time from the given offset. -/
def writeBytes (buf : List ℕ) (off : ℕ) : List Char → List ℕ
  | [] => buf
  | c :: cs => writeBytes (buf.set off (c.toNat % 256)) (off + 1) cs

/-- The writeString helper of createWavBlob. -/
def writeString (buf : List ℕ) (off : ℕ) (s : String) : List ℕ :=
  writeBytes buf off s.data

/-- Model of new Uint8Array(buffer, off).set(xs): overwrite the region starting
at off with xs (the view over the wav buffer at offset 44 has exactly the
payload length, so the copy is an exact-fit region overwrite). -/
def setSubarray (buf : List ℕ) (off : ℕ) (xs : List ℕ) : List ℕ :=
  buf.take off ++ xs ++ (buf.drop off).drop xs.length

/-- Header-writing block of createWavBlob (App.tsx lines 200-212): the DataView
writes of the RIFF/WAVE header fields for a payload of n bytes, in source
order, applied to the freshly allocated buffer. -/
def writeWavHeader (n sampleRate : ℕ) (buffer : List ℕ) : List ℕ :=
  let b := writeString buffer 0 ("RIFF")
  let b := setUint32LE b 4 (36 + n)
  let b := writeString b 8 ("WAVE")
  let b := writeString b 12 ("fmt ")
  let b := setUint32LE b 16 16
  let b := setUint16LE b 20 1
  let b := setUint16LE b 22 1
  let b := setUint32LE b 24 sampleRate
  let b := setUint32LE b 28 (sampleRate * 2)
  let b := setUint16LE b 32 2
  let b := setUint16LE b 34 16
  let b := writeString b 36 ("data")
  setUint32LE b 40 n

/-- The container writer createWavBlob (App.tsx lines 194-215): allocate
44 + length pcmData zero bytes, write the RIFF/WAVE header fields through
DataView calls, then copy the payload at offset 44. -/
def createWavBlob (pcmData : List ℕ) (sampleRate : ℕ) : List ℕ :=
  setSubarray
    (writeWavHeader pcmData.length sampleRate
      (List.replicate (44 + pcmData.length) 0)) 44 pcmData

/-- The 44 header bytes createWavBlob produces for a payload of length n at
the given sample rate, spelled out byte by byte. -/
def wavHeader (n r : ℕ) : List ℕ :=
  [82, 73, 70, 70,
   (36 + n) % 256, (36 + n) / 256 % 256, (36 + n) / 65536 % 256,
     (36 + n) / 16777216 % 256,
   87, 65, 86, 69,
   102, 109, 116, 32,
   16, 0, 0, 0,
   1, 0,
   1, 0,
   r % 256, r / 256 % 256, r / 65536 % 256, r / 16777216 % 256,
   r * 2 % 256, r * 2 / 256 % 256, r * 2 / 65536 % 256, r * 2 / 16777216 % 256,
   2, 0,
   16, 0,
   100, 97, 116, 97,
   n % 256, n / 256 % 256, n / 65536 % 256, n / 16777216 % 256]

/-- Little-endian 16-bit read from a byte list (missing bytes read as 0). -/
def readUint16LE (l : List ℕ) (off : ℕ) : ℕ :=
  l.getD off 0 + 256 * l.getD (off + 1) 0

/-- Little-endian 32-bit read from a byte list (missing bytes read as 0). -/
def readUint32LE (l : List ℕ) (off : ℕ) : ℕ :=
  l.getD off 0 + 256 * l.getD (off + 1) 0 + 65536 * l.getD (off + 2) 0 +
    16777216 * l.getD (off + 3) 0

/-- Argument pair of a decodeAudioData invocation: the sample rate and channel
count the caller passes. -/
structure DecodeAudioCall where
  sampleRate : ℕ
  numChannels : ℕ
deriving DecidableEq

/-- Sample rate passed to the output AudioContext constructor for the live
session (App.tsx line 104). -/
def liveOutputContextSampleRate : ℕ := 24000

/-- Sample rate passed to the AudioContext constructor in handleVoiceover
(App.tsx line 184). -/
def voiceoverContextSampleRate : ℕ := 24000

/-- Audio part of the onmessage callback (App.tsx lines 110-122): when the
message carries a base64 audio payload, the handler decodes it with
decodeAudioData(bytes, ctx, 24000, 1) and schedules the resulting unit;
otherwise nothing happens. Returns the new scheduler state and the argument
pair of the decodeAudioData call that was issued, if any. -/
def onmessageStep (st : SchedulerState) (base64Audio : Option String)
    (currentTime duration : ℚ) : SchedulerState × Option DecodeAudioCall :=
  match base64Audio with
  | none => (st, none)
  | some _ => ((scheduleNext st duration currentTime).2, some ⟨24000, 1⟩)

/-- Audio part of handleVoiceover (App.tsx lines 180-190): wrap the decoded
bytes via createWavBlob(audioBytes, 24000), open a fresh AudioContext at
24000 Hz, and decode with decodeAudioData(audioBytes, ctx, 24000, 1).
Returns the wav bytes, the context sample rate, and the decode call issued. -/
def handleVoiceoverAudio (audioBytes : List ℕ) :
    List ℕ × ℕ × DecodeAudioCall :=
  (createWavBlob audioBytes 24000, voiceoverContextSampleRate, ⟨24000, 1⟩)

/-- Sample rate passed to the AudioContext constructor in runCalibrationTest
(src/components/VoiceProfileCard.tsx line 111). -/
def calibrationContextSampleRate : ℕ := 24000

/-- Audio part of runCalibrationTest
(src/components/VoiceProfileCard.tsx lines 109-117): when the synthesis
response carries audio, the handler opens a fresh AudioContext at 24000 Hz and
decodes the bytes with decodeAudioData(audioBytes, ctx, 24000, 1), then plays
the buffer. Returns the bytes handed to the decoder, the context sample rate,
and the argument pair of the decodeAudioData call issued. -/
def runCalibrationTestAudio (audioBytes : List ℕ) :
    List ℕ × ℕ × DecodeAudioCall :=
  (audioBytes, calibrationContextSampleRate, ⟨24000, 1⟩)

/-- Modelled from the spec: the base64 alphabet of the Binary Codec in
src/services/audioUtils.ts, a file absent from src/ (sections 4.1 and 8 of the
spec: standard base64, no line wrapping, padding kept). -/
def base64Alphabet : List Char :=
  ("ABCDEFGHIJKLMNOPQRSTUVWXYZabcdefghijklmnopqrstuvwxyz0123456789+/").data

/-- Modelled from the spec: character for a sextet value. -/
def b64Char (v : ℕ) : Char := base64Alphabet.getD v 'A'

/-- Modelled from the spec: sextet value of an alphabet character, none for a
character outside the alphabet. -/
def b64Index (c : Char) : Option ℕ :=
  base64Alphabet.findIdx? (fun x => x == c)

/-- Modelled from the spec: encode of the Binary Codec
(src/services/audioUtils.ts is absent from src/). Standard base64: three bytes
become four sextet characters; a trailing group of one or two bytes is padded
with = to a full four-character group. -/
def encode : List ℕ → List Char
  | [] => []
  | [a] => [b64Char (a / 4), b64Char (a % 4 * 16), '=', '=']
  | [a, b] => [b64Char (a / 4), b64Char (a % 4 * 16 + b / 16),
               b64Char (b % 16 * 4), '=']
  | a :: b :: c :: rest =>
    b64Char (a / 4) :: b64Char (a % 4 * 16 + b / 16) ::
      b64Char (b % 16 * 4 + c / 64) :: b64Char (c % 64) :: encode rest

/-- Modelled from the spec: decode of the Binary Codec
(src/services/audioUtils.ts is absent from src/). Standard base64 decoding,
returning none on malformed input: a length not a multiple of four, a
character outside the alphabet, or padding anywhere but at the very end. -/
def decode : List Char → Option (List ℕ)
  | [] => some []
  | c1 :: c2 :: c3 :: c4 :: rest =>
    if c3 = '=' then
      if c4 = '=' then
        if rest = [] then
          match b64Index c1, b64Index c2 with
          | some s1, some s2 => some [s1 * 4 + s2 / 16]
          | _, _ => none
        else none
      else none
    else if c4 = '=' then
      if rest = [] then
        match b64Index c1, b64Index c2, b64Index c3 with
        | some s1, some s2, some s3 =>
          some [s1 * 4 + s2 / 16, s2 % 16 * 16 + s3 / 4]
        | _, _, _ => none
      else none
    else
      match b64Index c1, b64Index c2, b64Index c3, b64Index c4, decode rest with
      | some s1, some s2, some s3, some s4, some tail =>
        some ((s1 * 4 + s2 / 16) :: (s2 % 16 * 16 + s3 / 4) ::
          (s3 % 4 * 64 + s4) :: tail)
      | _, _, _, _, _ => none
  | _ => none

/-- Profile of a cloned voice; only the analysis text feeds the instruction
string built by getActiveVoiceConfig (App.tsx line 49). -/
structure VoiceProfile where
  analysis : String

/-- Entry of the prebuilt voice table (src/components/VoiceSelector.tsx). -/
structure VoiceOption where
  id : String
  name : String
  gender : String
  description : String
  baseVoice : String
  accent : String

/-- Voice configuration returned by getActiveVoiceConfig. -/
structure VoiceConfig where
  name : String
  baseVoice : String
  instruction : String

/-- The PREBUILT_VOICES table (src/components/VoiceSelector.tsx lines 5-21). -/
def PREBUILT_VOICES : List VoiceOption :=
  [{ id := "aarav", name := "Aarav", gender := "male",
     description := "Professional & Deep", baseVoice := "Fenrir",
     accent := "Indian" },
   { id := "vikram", name := "Vikram", gender := "male",
     description := "Authoritative & Resonant", baseVoice := "Puck",
     accent := "Indian" },
   { id := "kabir", name := "Kabir", gender := "male",
     description := "Mature & Gruff", baseVoice := "Fenrir",
     accent := "Indian" },
   { id := "rohan", name := "Rohan", gender := "male",
     description := "Energetic & Fast", baseVoice := "Charon",
     accent := "Indian" },
   { id := "ishaan", name := "Ishaan", gender := "male",
     description := "Friendly & Casual", baseVoice := "Charon",
     accent := "Indian" },
   { id := "neil", name := "Neil", gender := "male",
     description := "Smooth & Warm", baseVoice := "Puck",
     accent := "Indian" },
   { id := "ananya", name := "Ananya", gender := "female",
     description := "Clear & Sophisticated", baseVoice := "Kore",
     accent := "Indian" },
   { id := "aditi", name := "Aditi", gender := "female",
     description := "Soft & Ethereal", baseVoice := "Zephyr",
     accent := "Indian" },
   { id := "ishani", name := "Ishani", gender := "female",
     description := "Confident & Bold", baseVoice := "Kore",
     accent := "Indian" },
   { id := "kavita", name := "Kavita", gender := "female",
     description := "Polished & Formal", baseVoice := "Zephyr",
     accent := "Indian" },
   { id := "sanya", name := "Sanya", gender := "female",
     description := "Playful & Bright", baseVoice := "Kore",
     accent := "Indian" },
   { id := "meera", name := "Meera", gender := "female",
     description := "Gentle & Maternal", baseVoice := "Zephyr",
     accent := "Indian" }]

/-- Placeholder voice option; never reached since PREBUILT_VOICES is a
nonempty literal, but List.headD needs a default value. -/
def blankVoice : VoiceOption := ⟨"", "", "", "", "", ""⟩

/-- Persona config built from one prebuilt voice entry
(App.tsx lines 53-57). -/
def voiceConfigOf (prebuilt : VoiceOption) (pitch tone : String) :
    VoiceConfig :=
  { name := prebuilt.name
    baseVoice := prebuilt.baseVoice
    instruction :=
      ("Persona: ") ++ prebuilt.name ++ (". Identity: ") ++ prebuilt.gender ++
        (", ") ++ prebuilt.accent ++
        (" accent. Adjust base pitch to ") ++ pitch ++
        ("x and tone to ") ++ tone ++ ("x.") }

/-- Prebuilt branch of getActiveVoiceConfig (App.tsx lines 52-57): look the
selected id up in PREBUILT_VOICES, fall back to the first entry when the
lookup misses, and build the persona instruction string. -/
def prebuiltConfig (selectedVoiceId pitch tone : String) : VoiceConfig :=
  voiceConfigOf
    ((PREBUILT_VOICES.find? (fun v => v.id == selectedVoiceId)).getD
      (PREBUILT_VOICES.headD blankVoice)) pitch tone

/-- getActiveVoiceConfig (App.tsx lines 44-58). The numeric pitch and tone
multipliers enter only through string interpolation, so they are modeled as
their rendered strings. The custom branch is taken exactly when the selected
id is custom and a profile object is loaded. -/
def getActiveVoiceConfig (selectedVoiceId : String)
    (voiceProfile : Option VoiceProfile) (pitch tone : String) : VoiceConfig :=
  if selectedVoiceId = ("custom") then
    match voiceProfile with
    | some profile =>
      { name := "Neural Clone"
        baseVoice := "Kore"
        instruction :=
          ("STRICT NEURAL RECONSTRUCTION. BIOMETRIC DNA: ") ++
            profile.analysis ++
            (". REPLICATE EXACT TIMBRE, RESONANCE, AND PITCH OFFSET AT ") ++
            pitch ++ ("x AND TONE BRIGHTNESS AT ") ++ tone ++
            ("x. PREVENT ANY PHONETIC DRIFT.") }
    | none => prebuiltConfig selectedVoiceId pitch tone
  else prebuiltConfig selectedVoiceId pitch tone

/-- The VoiceStyle enum (src/types.ts lines 13-22). -/
inductive VoiceStyle
  | NEUTRAL
  | ADVERTISING
  | HORROR
  | EMOTIONAL
  | HAPPY
  | NARRATIVE
  | WHISPER
  | COMBINATION
deriving DecidableEq

/-- toggleStyle (App.tsx lines 75-88) acting on the previous active style
list: toggling NEUTRAL resets to the singleton, toggling an active non-neutral
style removes it (restoring the singleton when nothing is left), and toggling
an inactive non-neutral style appends it after dropping NEUTRAL. -/
def toggleStyle (style : VoiceStyle) (prev : List VoiceStyle) :
    List VoiceStyle :=
  if style = VoiceStyle.NEUTRAL then [VoiceStyle.NEUTRAL]
  else
    let filtered := prev.filter (fun s => s != VoiceStyle.NEUTRAL)
    if filtered.contains style then
      let next := filtered.filter (fun s => s != style)
      if next.length = 0 then [VoiceStyle.NEUTRAL] else next
    else filtered ++ [style]

/-- Iterated application of toggleStyle via setActiveStyles updates. -/
def applyToggles (toggles : List VoiceStyle) (init : List VoiceStyle) :
    List VoiceStyle :=
  toggles.foldl (fun acc s => toggleStyle s acc) init

/-- Invariant of the active style list: never empty, and NEUTRAL is active
exactly when the list is the neutral singleton. -/
def styleInv (l : List VoiceStyle) : Prop :=
  l ≠ [] ∧ (VoiceStyle.NEUTRAL ∈ l ↔ l = [VoiceStyle.NEUTRAL])

lemma scheduleAll_run (pairs : List (ℚ × ℚ)) :
    ∀ st : SchedulerState, devTimesOk st.nextStartTime pairs →
      (scheduleAll st pairs).1 =
        runningSums st.nextStartTime (pairs.map Prod.fst) ∧
      (scheduleAll st pairs).2.nextStartTime =
        st.nextStartTime + (pairs.map Prod.fst).sum := by
  induction pairs with
  | nil => intro st _; simp [scheduleAll, runningSums]
  | cons p rest ih =>
    intro st h
    obtain ⟨d, t⟩ := p
    obtain ⟨ht, hrest⟩ := h
    have hmax : max st.nextStartTime t = st.nextStartTime := max_eq_left ht
    have hstate : (scheduleNext st d t).2.nextStartTime =
        st.nextStartTime + d := by
      simp [scheduleNext, hmax]
    have hdev : devTimesOk (scheduleNext st d t).2.nextStartTime rest := by
      rw [hstate]
      rw [hmax] at hrest
      exact hrest
    obtain ⟨ih1, ih2⟩ := ih (scheduleNext st d t).2 hdev
    constructor
    · simp only [scheduleAll, List.map_cons, runningSums, List.cons_eq_cons]
      refine ⟨by simp [scheduleNext, hmax], ?_⟩
      rw [ih1, hstate]
    · simp only [scheduleAll, List.map_cons, List.sum_cons]
      rw [ih2, hstate]
      ring

lemma scheduleAll_cursor_le (pairs : List (ℚ × ℚ)) :
    ∀ st : SchedulerState, (∀ p ∈ pairs, 0 ≤ p.1) →
      st.nextStartTime ≤ (scheduleAll st pairs).2.nextStartTime := by
  induction pairs with
  | nil => intro st _; simp [scheduleAll]
  | cons p rest ih =>
    intro st h
    obtain ⟨d, t⟩ := p
    have hd : (0 : ℚ) ≤ d := h (d, t) (by simp)
    have hstep : st.nextStartTime ≤ (scheduleNext st d t).2.nextStartTime := by
      simp only [scheduleNext]
      calc st.nextStartTime ≤ max st.nextStartTime t := le_max_left _ _
        _ ≤ max st.nextStartTime t + d := le_add_of_nonneg_right hd
    calc st.nextStartTime ≤ (scheduleNext st d t).2.nextStartTime := hstep
      _ ≤ (scheduleAll (scheduleNext st d t).2 rest).2.nextStartTime :=
        ih _ (fun q hq => h q (by simp [hq]))
      _ = (scheduleAll st ((d, t) :: rest)).2.nextStartTime := by
        simp [scheduleAll]

lemma tryStopSource_ok (f : ℕ → Bool) (id : ℕ) :
    tryStopSource f id = Except.ok () := by
  cases h : f id <;> simp [tryStopSource, stopSource, h]

lemma forEachStop_ok (f : ℕ → Bool) : ∀ l : List ℕ,
    forEachStop f l = Except.ok () := by
  intro l
  induction l with
  | nil => rfl
  | cons id rest ih => rw [forEachStop, tryStopSource_ok]; exact ih

lemma stopLiveSession_run (f : ℕ → Bool) (st : SchedulerState) :
    stopLiveSession f st = Except.ok ⟨0, [], st.nextSourceId⟩ := by
  rw [stopLiveSession, forEachStop_ok]

/-- C1: starting from a reset scheduler (cursor 0), scheduling n decoded units
whose device times never exceed the running cursor gives the k-th unit the
exact start time d1 + ... + d(k-1), and leaves the cursor at the sum of all
durations. -/
theorem scheduling_gap_free (pairs : List (ℚ × ℚ))
    (h : devTimesOk 0 pairs) :
    (scheduleAll initState pairs).1 = runningSums 0 (pairs.map Prod.fst) ∧
    (scheduleAll initState pairs).2.nextStartTime =
      (pairs.map Prod.fst).sum := by
  have hrun := scheduleAll_run pairs initState h
  simpa [initState] using hrun

/-- Witness for C1 at durations 1, 2, 3 with device times 0, 1, 3. -/
theorem scheduling_gap_free_witness :
    devTimesOk 0 [((1 : ℚ), 0), (2, 1), (3, 3)] ∧
    ((scheduleAll initState [((1 : ℚ), 0), (2, 1), (3, 3)]).1 =
        runningSums 0 ([((1 : ℚ), 0), (2, 1), (3, 3)].map Prod.fst) ∧
      (scheduleAll initState [((1 : ℚ), 0), (2, 1), (3, 3)]).2.nextStartTime =
        ([((1 : ℚ), 0), (2, 1), (3, 3)].map Prod.fst).sum) := by
  have hdev : devTimesOk 0 [((1 : ℚ), 0), (2, 1), (3, 3)] := by
    norm_num [devTimesOk]
  exact ⟨hdev, scheduling_gap_free _ hdev⟩

/-- C2 counterexample: schedule three half-second units at device time 0, then
fire natural completion for all three scheduled sources; the active set still
has size 3, not the size 0 the claim asserts, because the onmessage handler
never registers a completion callback on the sources it creates. -/
theorem completion_callback_counterexample :
    ¬ ((sourceEnded (sourceEnded (sourceEnded
          (scheduleAll initState [((1 : ℚ)/2, 0), (1/2, 0), (1/2, 0)]).2 0) 1)
            2).activeSources.length = 0) := by
  decide

/-- C2 (amended): each scheduleNext call adds the new source handle to
activeSources but registers no completion callback; after scheduling three
half-second units at device time 0 the returned start times are 0, 0.5, 1.0
and the set has size 3, natural completion of a source leaves the state (hence
the set size) unchanged, and only stopLiveSession empties the set. -/
theorem live_scenario_sources_persist :
    (scheduleAll initState [((1 : ℚ)/2, 0), (1/2, 0), (1/2, 0)]).1 =
      [0, 1/2, 1] ∧
    (scheduleAll initState
        [((1 : ℚ)/2, 0), (1/2, 0), (1/2, 0)]).2.activeSources.length = 3 ∧
    (∀ (st : SchedulerState) (id : ℕ), sourceEnded st id = st) ∧
    (∀ f : ℕ → Bool,
      (stopLiveSession f
          (scheduleAll initState
            [((1 : ℚ)/2, 0), (1/2, 0), (1/2, 0)]).2).map
        SchedulerState.activeSources = Except.ok []) := by
  have hdev : devTimesOk 0 [((1 : ℚ)/2, 0), (1/2, 0), (1/2, 0)] := by
    norm_num [devTimesOk]
  have hrun := scheduleAll_run [((1 : ℚ)/2, 0), (1/2, 0), (1/2, 0)] initState hdev
  refine ⟨?_, by decide, fun st id => rfl, fun f => ?_⟩
  · rw [hrun.1]
    norm_num [runningSums, initState]
  · rw [stopLiveSession_run]
    rfl

/-- C3: reset (stopLiveSession) never raises and always leaves the scheduler
zeroed — activeSources empty and cursor 0 — whatever subset of the individual
source-stop calls fail, including on a second consecutive call and on a state
whose active set is already empty. -/
theorem reset_always_zeroes (f g : ℕ → Bool) (st : SchedulerState) :
    stopLiveSession f st = Except.ok ⟨0, [], st.nextSourceId⟩ ∧
    (stopLiveSession f st >>= stopLiveSession g) =
      Except.ok ⟨0, [], st.nextSourceId⟩ ∧
    stopLiveSession f ⟨st.nextStartTime, [], st.nextSourceId⟩ =
      Except.ok ⟨0, [], st.nextSourceId⟩ := by
  refine ⟨stopLiveSession_run f st, ?_,
    stopLiveSession_run f ⟨st.nextStartTime, [], st.nextSourceId⟩⟩
  rw [stopLiveSession_run f st]
  exact stopLiveSession_run g ⟨0, [], st.nextSourceId⟩

/-- C5: the start time used by scheduleNext is at least the device time and at
least the cursor before the call; with nonnegative durations the cursor never
decreases, neither in one call nor across any sequence of calls, and
stopLiveSession is what returns it to 0. -/
theorem cursor_monotone (st : SchedulerState) (d t : ℚ) (hd : 0 ≤ d)
    (pairs : List (ℚ × ℚ)) (hp : ∀ p ∈ pairs, 0 ≤ p.1) (f : ℕ → Bool) :
    t ≤ (scheduleNext st d t).1 ∧
    st.nextStartTime ≤ (scheduleNext st d t).1 ∧
    st.nextStartTime ≤ (scheduleNext st d t).2.nextStartTime ∧
    st.nextStartTime ≤ (scheduleAll st pairs).2.nextStartTime ∧
    (stopLiveSession f st).map SchedulerState.nextStartTime =
      Except.ok 0 := by
  refine ⟨le_max_right _ _, le_max_left _ _, ?_,
    scheduleAll_cursor_le pairs st hp, ?_⟩
  · simp only [scheduleNext]
    calc st.nextStartTime ≤ max st.nextStartTime t := le_max_left _ _
      _ ≤ max st.nextStartTime t + d := le_add_of_nonneg_right hd
  · rw [stopLiveSession_run]
    rfl

/-- Witness for C5 at a concrete state, duration, device time and call list. -/
theorem cursor_monotone_witness :
    ((0 : ℚ) ≤ 2 ∧
      ∀ p ∈ ([((3 : ℚ), (0 : ℚ))] : List (ℚ × ℚ)), 0 ≤ p.1) ∧
    ((1 : ℚ) ≤ (scheduleNext ⟨1, [], 0⟩ 2 1).1 ∧
      (1 : ℚ) ≤ (scheduleNext ⟨1, [], 0⟩ 2 1).1 ∧
      (1 : ℚ) ≤ (scheduleNext ⟨1, [], 0⟩ 2 1).2.nextStartTime ∧
      (1 : ℚ) ≤
        (scheduleAll ⟨1, [], 0⟩
          ([((3 : ℚ), (0 : ℚ))] : List (ℚ × ℚ))).2.nextStartTime ∧
      (stopLiveSession (fun _ => true) ⟨1, [], 0⟩).map
        SchedulerState.nextStartTime = Except.ok 0) := by
  have h1 : (0 : ℚ) ≤ 2 := by norm_num
  have h2 : ∀ p ∈ ([((3 : ℚ), (0 : ℚ))] : List (ℚ × ℚ)), 0 ≤ p.1 := by
    norm_num
  exact ⟨⟨h1, h2⟩, cursor_monotone ⟨1, [], 0⟩ 2 1 h1 _ h2 (fun _ => true)⟩

lemma length_writeBytes (cs : List Char) : ∀ (buf : List ℕ) (off : ℕ),
    (writeBytes buf off cs).length = buf.length := by
  induction cs with
  | nil => intro buf off; rfl
  | cons c cs ih => intro buf off; rw [writeBytes, ih]; simp

lemma length_setUint16LE (buf : List ℕ) (off v : ℕ) :
    (setUint16LE buf off v).length = buf.length := by
  simp [setUint16LE]

lemma length_setUint32LE (buf : List ℕ) (off v : ℕ) :
    (setUint32LE buf off v).length = buf.length := by
  simp [setUint32LE]

lemma writeBytes_append (cs : List Char) :
    ∀ (l₁ l₂ : List ℕ) (off : ℕ), off + cs.length ≤ l₁.length →
      writeBytes (l₁ ++ l₂) off cs = writeBytes l₁ off cs ++ l₂ := by
  induction cs with
  | nil => intro l₁ l₂ off h; rfl
  | cons c cs ih =>
    intro l₁ l₂ off h
    simp only [List.length_cons] at h
    simp only [writeBytes]
    rw [List.set_append_left _ _ (by omega)]
    exact ih _ _ _ (by simp; omega)

lemma setUint16LE_append (l₁ l₂ : List ℕ) (off v : ℕ)
    (h : off + 2 ≤ l₁.length) :
    setUint16LE (l₁ ++ l₂) off v = setUint16LE l₁ off v ++ l₂ := by
  unfold setUint16LE
  rw [List.set_append_left _ _ (by omega),
    List.set_append_left _ _ (by simp; omega)]

lemma setUint32LE_append (l₁ l₂ : List ℕ) (off v : ℕ)
    (h : off + 4 ≤ l₁.length) :
    setUint32LE (l₁ ++ l₂) off v = setUint32LE l₁ off v ++ l₂ := by
  unfold setUint32LE
  rw [List.set_append_left _ _ (by omega),
    List.set_append_left _ _ (by simp; omega),
    List.set_append_left _ _ (by simp; omega),
    List.set_append_left _ _ (by simp; omega)]

lemma writeWavHeader_append (n r : ℕ) (tail : List ℕ) :
    writeWavHeader n r (List.replicate 44 0 ++ tail) =
      writeWavHeader n r (List.replicate 44 0) ++ tail := by
  simp only [writeWavHeader, writeString]
  rw [writeBytes_append, setUint32LE_append, writeBytes_append,
    writeBytes_append, setUint32LE_append, setUint16LE_append,
    setUint16LE_append, setUint32LE_append, setUint32LE_append,
    setUint16LE_append, setUint16LE_append, writeBytes_append,
    setUint32LE_append] <;>
  simp [length_writeBytes, length_setUint16LE, length_setUint32LE]

lemma writeWavHeader_eval (n r : ℕ) :
    writeWavHeader n r (List.replicate 44 0) = wavHeader n r := by
  have h1 :
    writeBytes (List.replicate 44 0) 0 ['R', 'I', 'F', 'F'] =
      82 :: 73 :: 70 :: 70 :: List.replicate 40 0 := rfl
  have h2 :
    setUint32LE (82 :: 73 :: 70 :: 70 :: List.replicate 40 0) 4 (36 + n) =
      82 :: 73 :: 70 :: 70 :: (36 + n) % 256 :: (36 + n) / 256 % 256 ::
        (36 + n) / 65536 % 256 :: (36 + n) / 16777216 % 256 ::
        List.replicate 36 0 := rfl
  have h3 :
    writeBytes (82 :: 73 :: 70 :: 70 :: (36 + n) % 256 ::
        (36 + n) / 256 % 256 :: (36 + n) / 65536 % 256 ::
        (36 + n) / 16777216 % 256 :: List.replicate 36 0) 8 ['W', 'A', 'V', 'E'] =
      82 :: 73 :: 70 :: 70 :: (36 + n) % 256 :: (36 + n) / 256 % 256 ::
        (36 + n) / 65536 % 256 :: (36 + n) / 16777216 % 256 ::
        87 :: 65 :: 86 :: 69 :: List.replicate 32 0 := rfl
  have h4 :
    writeBytes (82 :: 73 :: 70 :: 70 :: (36 + n) % 256 ::
        (36 + n) / 256 % 256 :: (36 + n) / 65536 % 256 ::
        (36 + n) / 16777216 % 256 :: 87 :: 65 :: 86 :: 69 ::
        List.replicate 32 0) 12 ['f', 'm', 't', ' '] =
      82 :: 73 :: 70 :: 70 :: (36 + n) % 256 :: (36 + n) / 256 % 256 ::
        (36 + n) / 65536 % 256 :: (36 + n) / 16777216 % 256 ::
        87 :: 65 :: 86 :: 69 :: 102 :: 109 :: 116 :: 32 ::
        List.replicate 28 0 := rfl
  have h5 :
    setUint32LE (82 :: 73 :: 70 :: 70 :: (36 + n) % 256 ::
        (36 + n) / 256 % 256 :: (36 + n) / 65536 % 256 ::
        (36 + n) / 16777216 % 256 :: 87 :: 65 :: 86 :: 69 ::
        102 :: 109 :: 116 :: 32 :: List.replicate 28 0) 16 16 =
      82 :: 73 :: 70 :: 70 :: (36 + n) % 256 :: (36 + n) / 256 % 256 ::
        (36 + n) / 65536 % 256 :: (36 + n) / 16777216 % 256 ::
        87 :: 65 :: 86 :: 69 :: 102 :: 109 :: 116 :: 32 ::
        16 :: 0 :: 0 :: 0 :: List.replicate 24 0 := rfl
  have h6 :
    setUint16LE (82 :: 73 :: 70 :: 70 :: (36 + n) % 256 ::
        (36 + n) / 256 % 256 :: (36 + n) / 65536 % 256 ::
        (36 + n) / 16777216 % 256 :: 87 :: 65 :: 86 :: 69 ::
        102 :: 109 :: 116 :: 32 :: 16 :: 0 :: 0 :: 0 ::
        List.replicate 24 0) 20 1 =
      82 :: 73 :: 70 :: 70 :: (36 + n) % 256 :: (36 + n) / 256 % 256 ::
        (36 + n) / 65536 % 256 :: (36 + n) / 16777216 % 256 ::
        87 :: 65 :: 86 :: 69 :: 102 :: 109 :: 116 :: 32 ::
        16 :: 0 :: 0 :: 0 :: 1 :: 0 :: List.replicate 22 0 := rfl
  have h7 :
    setUint16LE (82 :: 73 :: 70 :: 70 :: (36 + n) % 256 ::
        (36 + n) / 256 % 256 :: (36 + n) / 65536 % 256 ::
        (36 + n) / 16777216 % 256 :: 87 :: 65 :: 86 :: 69 ::
        102 :: 109 :: 116 :: 32 :: 16 :: 0 :: 0 :: 0 :: 1 :: 0 ::
        List.replicate 22 0) 22 1 =
      82 :: 73 :: 70 :: 70 :: (36 + n) % 256 :: (36 + n) / 256 % 256 ::
        (36 + n) / 65536 % 256 :: (36 + n) / 16777216 % 256 ::
        87 :: 65 :: 86 :: 69 :: 102 :: 109 :: 116 :: 32 ::
        16 :: 0 :: 0 :: 0 :: 1 :: 0 :: 1 :: 0 :: List.replicate 20 0 := rfl
  have h8 :
    setUint32LE (82 :: 73 :: 70 :: 70 :: (36 + n) % 256 ::
        (36 + n) / 256 % 256 :: (36 + n) / 65536 % 256 ::
        (36 + n) / 16777216 % 256 :: 87 :: 65 :: 86 :: 69 ::
        102 :: 109 :: 116 :: 32 :: 16 :: 0 :: 0 :: 0 :: 1 :: 0 :: 1 :: 0 ::
        List.replicate 20 0) 24 r =
      82 :: 73 :: 70 :: 70 :: (36 + n) % 256 :: (36 + n) / 256 % 256 ::
        (36 + n) / 65536 % 256 :: (36 + n) / 16777216 % 256 ::
        87 :: 65 :: 86 :: 69 :: 102 :: 109 :: 116 :: 32 ::
        16 :: 0 :: 0 :: 0 :: 1 :: 0 :: 1 :: 0 ::
        r % 256 :: r / 256 % 256 :: r / 65536 % 256 :: r / 16777216 % 256 ::
        List.replicate 16 0 := rfl
  have h9 :
    setUint32LE (82 :: 73 :: 70 :: 70 :: (36 + n) % 256 ::
        (36 + n) / 256 % 256 :: (36 + n) / 65536 % 256 ::
        (36 + n) / 16777216 % 256 :: 87 :: 65 :: 86 :: 69 ::
        102 :: 109 :: 116 :: 32 :: 16 :: 0 :: 0 :: 0 :: 1 :: 0 :: 1 :: 0 ::
        r % 256 :: r / 256 % 256 :: r / 65536 % 256 :: r / 16777216 % 256 ::
        List.replicate 16 0) 28 (r * 2) =
      82 :: 73 :: 70 :: 70 :: (36 + n) % 256 :: (36 + n) / 256 % 256 ::
        (36 + n) / 65536 % 256 :: (36 + n) / 16777216 % 256 ::
        87 :: 65 :: 86 :: 69 :: 102 :: 109 :: 116 :: 32 ::
        16 :: 0 :: 0 :: 0 :: 1 :: 0 :: 1 :: 0 ::
        r % 256 :: r / 256 % 256 :: r / 65536 % 256 :: r / 16777216 % 256 ::
        r * 2 % 256 :: r * 2 / 256 % 256 :: r * 2 / 65536 % 256 ::
        r * 2 / 16777216 % 256 :: List.replicate 12 0 := rfl
  have h10 :
    setUint16LE (82 :: 73 :: 70 :: 70 :: (36 + n) % 256 ::
        (36 + n) / 256 % 256 :: (36 + n) / 65536 % 256 ::
        (36 + n) / 16777216 % 256 :: 87 :: 65 :: 86 :: 69 ::
        102 :: 109 :: 116 :: 32 :: 16 :: 0 :: 0 :: 0 :: 1 :: 0 :: 1 :: 0 ::
        r % 256 :: r / 256 % 256 :: r / 65536 % 256 :: r / 16777216 % 256 ::
        r * 2 % 256 :: r * 2 / 256 % 256 :: r * 2 / 65536 % 256 ::
        r * 2 / 16777216 % 256 :: List.replicate 12 0) 32 2 =
      82 :: 73 :: 70 :: 70 :: (36 + n) % 256 :: (36 + n) / 256 % 256 ::
        (36 + n) / 65536 % 256 :: (36 + n) / 16777216 % 256 ::
        87 :: 65 :: 86 :: 69 :: 102 :: 109 :: 116 :: 32 ::
        16 :: 0 :: 0 :: 0 :: 1 :: 0 :: 1 :: 0 ::
        r % 256 :: r / 256 % 256 :: r / 65536 % 256 :: r / 16777216 % 256 ::
        r * 2 % 256 :: r * 2 / 256 % 256 :: r * 2 / 65536 % 256 ::
        r * 2 / 16777216 % 256 :: 2 :: 0 :: List.replicate 10 0 := rfl
  have h11 :
    setUint16LE (82 :: 73 :: 70 :: 70 :: (36 + n) % 256 ::
        (36 + n) / 256 % 256 :: (36 + n) / 65536 % 256 ::
        (36 + n) / 16777216 % 256 :: 87 :: 65 :: 86 :: 69 ::
        102 :: 109 :: 116 :: 32 :: 16 :: 0 :: 0 :: 0 :: 1 :: 0 :: 1 :: 0 ::
        r % 256 :: r / 256 % 256 :: r / 65536 % 256 :: r / 16777216 % 256 ::
        r * 2 % 256 :: r * 2 / 256 % 256 :: r * 2 / 65536 % 256 ::
        r * 2 / 16777216 % 256 :: 2 :: 0 :: List.replicate 10 0) 34 16 =
      82 :: 73 :: 70 :: 70 :: (36 + n) % 256 :: (36 + n) / 256 % 256 ::
        (36 + n) / 65536 % 256 :: (36 + n) / 16777216 % 256 ::
        87 :: 65 :: 86 :: 69 :: 102 :: 109 :: 116 :: 32 ::
        16 :: 0 :: 0 :: 0 :: 1 :: 0 :: 1 :: 0 ::
        r % 256 :: r / 256 % 256 :: r / 65536 % 256 :: r / 16777216 % 256 ::
        r * 2 % 256 :: r * 2 / 256 % 256 :: r * 2 / 65536 % 256 ::
        r * 2 / 16777216 % 256 :: 2 :: 0 :: 16 :: 0 :: List.replicate 8 0 := rfl
  have h12 :
    writeBytes (82 :: 73 :: 70 :: 70 :: (36 + n) % 256 ::
        (36 + n) / 256 % 256 :: (36 + n) / 65536 % 256 ::
        (36 + n) / 16777216 % 256 :: 87 :: 65 :: 86 :: 69 ::
        102 :: 109 :: 116 :: 32 :: 16 :: 0 :: 0 :: 0 :: 1 :: 0 :: 1 :: 0 ::
        r % 256 :: r / 256 % 256 :: r / 65536 % 256 :: r / 16777216 % 256 ::
        r * 2 % 256 :: r * 2 / 256 % 256 :: r * 2 / 65536 % 256 ::
        r * 2 / 16777216 % 256 :: 2 :: 0 :: 16 :: 0 :: List.replicate 8 0)
        36 ['d', 'a', 't', 'a'] =
      82 :: 73 :: 70 :: 70 :: (36 + n) % 256 :: (36 + n) / 256 % 256 ::
        (36 + n) / 65536 % 256 :: (36 + n) / 16777216 % 256 ::
        87 :: 65 :: 86 :: 69 :: 102 :: 109 :: 116 :: 32 ::
        16 :: 0 :: 0 :: 0 :: 1 :: 0 :: 1 :: 0 ::
        r % 256 :: r / 256 % 256 :: r / 65536 % 256 :: r / 16777216 % 256 ::
        r * 2 % 256 :: r * 2 / 256 % 256 :: r * 2 / 65536 % 256 ::
        r * 2 / 16777216 % 256 :: 2 :: 0 :: 16 :: 0 ::
        100 :: 97 :: 116 :: 97 :: List.replicate 4 0 := rfl
  have h13 :
    setUint32LE (82 :: 73 :: 70 :: 70 :: (36 + n) % 256 ::
        (36 + n) / 256 % 256 :: (36 + n) / 65536 % 256 ::
        (36 + n) / 16777216 % 256 :: 87 :: 65 :: 86 :: 69 ::
        102 :: 109 :: 116 :: 32 :: 16 :: 0 :: 0 :: 0 :: 1 :: 0 :: 1 :: 0 ::
        r % 256 :: r / 256 % 256 :: r / 65536 % 256 :: r / 16777216 % 256 ::
        r * 2 % 256 :: r * 2 / 256 % 256 :: r * 2 / 65536 % 256 ::
        r * 2 / 16777216 % 256 :: 2 :: 0 :: 16 :: 0 ::
        100 :: 97 :: 116 :: 97 :: List.replicate 4 0) 40 n =
      wavHeader n r := rfl
  simp only [writeWavHeader, writeString]
  rw [h1, h2, h3, h4, h5, h6, h7, h8, h9, h10, h11, h12, h13]

lemma wavHeader_length (n r : ℕ) : (wavHeader n r).length = 44 := rfl

lemma drop_replicate_self (n : ℕ) :
    (List.replicate n (0 : ℕ)).drop n = [] := by
  have h := List.drop_length (List.replicate n (0 : ℕ))
  rwa [List.length_replicate] at h

lemma createWavBlob_eq (p : List ℕ) (r : ℕ) :
    createWavBlob p r = wavHeader p.length r ++ p := by
  unfold createWavBlob
  rw [List.replicate_add, writeWavHeader_append, writeWavHeader_eval]
  unfold setSubarray
  rw [List.take_left' (wavHeader_length p.length r),
    List.drop_left' (wavHeader_length p.length r), drop_replicate_self]
  simp

lemma getD_append_lt (l m : List ℕ) (i : ℕ) (h : i < l.length) :
    (l ++ m).getD i 0 = l.getD i 0 := by
  simp [List.getD_eq_getElem?_getD, List.getElem?_append_left h]

lemma readUint16LE_append (l m : List ℕ) (off : ℕ) (h : off + 1 < l.length) :
    readUint16LE (l ++ m) off = readUint16LE l off := by
  unfold readUint16LE
  rw [getD_append_lt _ _ _ (by omega), getD_append_lt _ _ _ (by omega)]

lemma readUint32LE_append (l m : List ℕ) (off : ℕ) (h : off + 3 < l.length) :
    readUint32LE (l ++ m) off = readUint32LE l off := by
  unfold readUint32LE
  rw [getD_append_lt _ _ _ (by omega), getD_append_lt _ _ _ (by omega),
    getD_append_lt _ _ _ (by omega), getD_append_lt _ _ _ (by omega)]

lemma le32_decomp (v : ℕ) (h : v < 4294967296) :
    v % 256 + 256 * (v / 256 % 256) + 65536 * (v / 65536 % 256) +
      16777216 * (v / 16777216 % 256) = v := by
  omega

lemma wavHeader_read4 (n r : ℕ) :
    readUint32LE (wavHeader n r) 4 =
      (36 + n) % 256 + 256 * ((36 + n) / 256 % 256) +
        65536 * ((36 + n) / 65536 % 256) +
        16777216 * ((36 + n) / 16777216 % 256) := rfl

lemma wavHeader_read24 (n r : ℕ) :
    readUint32LE (wavHeader n r) 24 =
      r % 256 + 256 * (r / 256 % 256) + 65536 * (r / 65536 % 256) +
        16777216 * (r / 16777216 % 256) := rfl

lemma wavHeader_read28 (n r : ℕ) :
    readUint32LE (wavHeader n r) 28 =
      r * 2 % 256 + 256 * (r * 2 / 256 % 256) + 65536 * (r * 2 / 65536 % 256) +
        16777216 * (r * 2 / 16777216 % 256) := rfl

lemma wavHeader_read40 (n r : ℕ) :
    readUint32LE (wavHeader n r) 40 =
      n % 256 + 256 * (n / 256 % 256) + 65536 * (n / 65536 % 256) +
        16777216 * (n / 16777216 % 256) := rfl

lemma createWavBlob_rate (p : List ℕ) (r : ℕ) (hr : r < 4294967296) :
    readUint32LE (createWavBlob p r) 24 = r := by
  rw [createWavBlob_eq, readUint32LE_append _ _ _ (by rw [wavHeader_length]; omega),
    wavHeader_read24]
  exact le32_decomp r hr

/-- C4: createWavBlob outputs exactly 44 header bytes followed by the payload
unchanged, with declared total size 36 + len, mono channel count, the given
sample rate, byte rate = rate times 2, block align 2, bits per sample 16, and
declared data size len; the range hypotheses state that the declared sizes fit
an unsigned 32-bit field. -/
theorem createWavBlob_header_spec (p : List ℕ) (r : ℕ)
    (hr : 2 * r < 4294967296) (hn : 36 + p.length < 4294967296) :
    (createWavBlob p r).length = 44 + p.length ∧
    (createWavBlob p r).take 44 = wavHeader p.length r ∧
    (createWavBlob p r).drop 44 = p ∧
    readUint32LE (createWavBlob p r) 4 = 36 + p.length ∧
    readUint16LE (createWavBlob p r) 22 = 1 ∧
    readUint32LE (createWavBlob p r) 24 = r ∧
    readUint32LE (createWavBlob p r) 28 = r * 2 ∧
    readUint16LE (createWavBlob p r) 32 = 2 ∧
    readUint16LE (createWavBlob p r) 34 = 16 ∧
    readUint32LE (createWavBlob p r) 40 = p.length := by
  rw [createWavBlob_eq]
  refine ⟨?_, List.take_left' (wavHeader_length p.length r),
    List.drop_left' (wavHeader_length p.length r), ?_, ?_, ?_, ?_, ?_, ?_, ?_⟩
  · rw [List.length_append, wavHeader_length]
  · rw [readUint32LE_append _ _ _ (by rw [wavHeader_length]; omega),
      wavHeader_read4]
    exact le32_decomp _ hn
  · rw [readUint16LE_append _ _ _ (by rw [wavHeader_length]; omega)]
    rfl
  · rw [readUint32LE_append _ _ _ (by rw [wavHeader_length]; omega),
      wavHeader_read24]
    exact le32_decomp r (by omega)
  · rw [readUint32LE_append _ _ _ (by rw [wavHeader_length]; omega),
      wavHeader_read28]
    exact le32_decomp (r * 2) (by omega)
  · rw [readUint16LE_append _ _ _ (by rw [wavHeader_length]; omega)]
    rfl
  · rw [readUint16LE_append _ _ _ (by rw [wavHeader_length]; omega)]
    rfl
  · rw [readUint32LE_append _ _ _ (by rw [wavHeader_length]; omega),
      wavHeader_read40]
    exact le32_decomp _ (by omega)

/-- Witness for C4 at the empty payload and sample rate 24000: exactly
44 bytes with declared sizes 36 and 0. -/
theorem createWavBlob_header_spec_witness :
    (2 * 24000 < 4294967296 ∧ 36 + ([] : List ℕ).length < 4294967296) ∧
    ((createWavBlob [] 24000).length = 44 + ([] : List ℕ).length ∧
      (createWavBlob [] 24000).take 44 = wavHeader ([] : List ℕ).length 24000 ∧
      (createWavBlob [] 24000).drop 44 = ([] : List ℕ) ∧
      readUint32LE (createWavBlob [] 24000) 4 = 36 + ([] : List ℕ).length ∧
      readUint16LE (createWavBlob [] 24000) 22 = 1 ∧
      readUint32LE (createWavBlob [] 24000) 24 = 24000 ∧
      readUint32LE (createWavBlob [] 24000) 28 = 24000 * 2 ∧
      readUint16LE (createWavBlob [] 24000) 32 = 2 ∧
      readUint16LE (createWavBlob [] 24000) 34 = 16 ∧
      readUint32LE (createWavBlob [] 24000) 40 = ([] : List ℕ).length) :=
  ⟨⟨by norm_num, by norm_num⟩,
    createWavBlob_header_spec [] 24000 (by norm_num) (by norm_num)⟩

/-- C8: the container writer is deterministic and pure — in this embedding it
is a function of the payload and sample rate alone (it reads none of the
component refs), so equal inputs give byte-identical output. -/
theorem createWavBlob_deterministic (p₁ p₂ : List ℕ) (r₁ r₂ : ℕ)
    (hp : p₁ = p₂) (hr : r₁ = r₂) :
    createWavBlob p₁ r₁ = createWavBlob p₂ r₂ := by
  rw [hp, hr]

/-- Witness for C8 at a concrete payload and rate. -/
theorem createWavBlob_deterministic_witness :
    (([1, 2] : List ℕ) = [1, 2] ∧ (24000 : ℕ) = 24000) ∧
    createWavBlob [1, 2] 24000 = createWavBlob [1, 2] 24000 :=
  ⟨⟨rfl, rfl⟩, createWavBlob_deterministic [1, 2] [1, 2] 24000 24000 rfl rfl⟩

/-- C7: every call the application makes into the decode and encode path fixes
the 24000 Hz mono transport format: all three AudioContext constructions (the
live output context in startLiveSession, the voiceover context in
handleVoiceover, and the calibration context in runCalibrationTest) are built
at 24000 Hz, all three decodeAudioData call sites (onmessage, handleVoiceover,
runCalibrationTest) pass sample rate 24000 and channel count 1, and the
container writer is always invoked with sample rate 24000 (so the produced
wav declares 24000 Hz). -/
theorem transport_format_fixed (st : SchedulerState) (b64 : String)
    (t d : ℚ) (bytes calBytes : List ℕ) :
    liveOutputContextSampleRate = 24000 ∧
    voiceoverContextSampleRate = 24000 ∧
    calibrationContextSampleRate = 24000 ∧
    (onmessageStep st (some b64) t d).2 = some ⟨24000, 1⟩ ∧
    (onmessageStep st none t d).2 = none ∧
    (handleVoiceoverAudio bytes).1 = createWavBlob bytes 24000 ∧
    (handleVoiceoverAudio bytes).2.1 = 24000 ∧
    (handleVoiceoverAudio bytes).2.2 = ⟨24000, 1⟩ ∧
    readUint32LE (handleVoiceoverAudio bytes).1 24 = 24000 ∧
    (runCalibrationTestAudio calBytes).1 = calBytes ∧
    (runCalibrationTestAudio calBytes).2.1 = 24000 ∧
    (runCalibrationTestAudio calBytes).2.2 = ⟨24000, 1⟩ := by
  refine ⟨rfl, rfl, rfl, rfl, rfl, rfl, rfl, rfl, ?_, rfl, rfl, rfl⟩
  exact createWavBlob_rate bytes 24000 (by norm_num)

/-- C9: when the selected id is custom without a loaded profile, or matches no
entry of the prebuilt table, getActiveVoiceConfig does not raise: it falls
back to the first prebuilt entry and returns the config derived from it
(name Aarav, base voice Fenrir). -/
theorem voice_lookup_fallback (sel pitch tone : String)
    (profile : Option VoiceProfile)
    (h : (sel = ("custom") ∧ profile = none) ∨
      (sel ≠ ("custom") ∧ ∀ v ∈ PREBUILT_VOICES, v.id ≠ sel)) :
    getActiveVoiceConfig sel profile pitch tone =
      voiceConfigOf (PREBUILT_VOICES.headD blankVoice) pitch tone ∧
    (PREBUILT_VOICES.headD blankVoice).name = ("Aarav") ∧
    (PREBUILT_VOICES.headD blankVoice).baseVoice = ("Fenrir") := by
  refine ⟨?_, rfl, rfl⟩
  rcases h with ⟨hs, hp⟩ | ⟨hs, hall⟩
  · subst hs
    subst hp
    have hfind :
        PREBUILT_VOICES.find? (fun v => v.id == ("custom")) = none := rfl
    show prebuiltConfig ("custom") pitch tone = _
    unfold prebuiltConfig
    rw [hfind]
    rfl
  · have hfind : PREBUILT_VOICES.find? (fun v => v.id == sel) = none :=
      List.find?_eq_none.mpr (fun x hx => by
        simp only [beq_iff_eq]
        exact fun hcontra => hall x hx hcontra)
    unfold getActiveVoiceConfig
    rw [if_neg hs]
    unfold prebuiltConfig
    rw [hfind]
    rfl

/-- Witness for C9 at an id absent from the prebuilt table. -/
theorem voice_lookup_fallback_witness :
    (("narrator" = ("custom") ∧
        (some (VoiceProfile.mk ("dna")) : Option VoiceProfile) = none) ∨
      ("narrator" ≠ ("custom") ∧
        ∀ v ∈ PREBUILT_VOICES, v.id ≠ ("narrator"))) ∧
    (getActiveVoiceConfig ("narrator") (some (VoiceProfile.mk ("dna")))
        ("1.0") ("1.0") =
      voiceConfigOf (PREBUILT_VOICES.headD blankVoice) ("1.0") ("1.0") ∧
    (PREBUILT_VOICES.headD blankVoice).name = ("Aarav") ∧
    (PREBUILT_VOICES.headD blankVoice).baseVoice = ("Fenrir")) := by
  have h : ("narrator" = ("custom") ∧
        (some (VoiceProfile.mk ("dna")) : Option VoiceProfile) = none) ∨
      ("narrator" ≠ ("custom") ∧
        ∀ v ∈ PREBUILT_VOICES, v.id ≠ ("narrator")) :=
    Or.inr ⟨by decide, by decide⟩
  exact ⟨h, voice_lookup_fallback ("narrator") ("1.0") ("1.0")
    (some (VoiceProfile.mk ("dna"))) h⟩

lemma toggleStyle_inv (s : VoiceStyle) (l : List VoiceStyle) :
    styleInv (toggleStyle s l) := by
  unfold styleInv
  by_cases hs : s = VoiceStyle.NEUTRAL
  · simp only [toggleStyle, if_pos hs]
    exact ⟨List.cons_ne_nil _ _, by simp⟩
  · simp only [toggleStyle, if_neg hs]
    have hNf : VoiceStyle.NEUTRAL ∉
        l.filter (fun x => x != VoiceStyle.NEUTRAL) := by
      intro hmem
      have := (List.mem_filter.mp hmem).2
      simp at this
    by_cases hc :
        (l.filter (fun x => x != VoiceStyle.NEUTRAL)).contains s = true
    · rw [if_pos hc]
      by_cases hz :
          ((l.filter (fun x => x != VoiceStyle.NEUTRAL)).filter
            (fun x => x != s)).length = 0
      · rw [if_pos hz]
        exact ⟨List.cons_ne_nil _ _, by simp⟩
      · rw [if_neg hz]
        have hNn : VoiceStyle.NEUTRAL ∉
            (l.filter (fun x => x != VoiceStyle.NEUTRAL)).filter
              (fun x => x != s) :=
          fun hmem => hNf (List.mem_filter.mp hmem).1
        refine ⟨fun he => hz (by rw [he]; rfl), ?_, ?_⟩
        · intro hmem
          exact absurd hmem hNn
        · intro he
          rw [he]
          exact List.mem_singleton_self _
    · rw [if_neg hc]
      have hN : VoiceStyle.NEUTRAL ∉
          l.filter (fun x => x != VoiceStyle.NEUTRAL) ++ [s] := by
        intro hmem
        rcases List.mem_append.mp hmem with h1 | h1
        · exact hNf h1
        · rw [List.mem_singleton] at h1
          exact hs h1.symm
      refine ⟨by simp, fun hmem => absurd hmem hN, fun he => ?_⟩
      rw [he]
      exact List.mem_singleton_self _

lemma applyToggles_inv (ts : List VoiceStyle) :
    ∀ init : List VoiceStyle, styleInv init →
      styleInv (applyToggles ts init) := by
  induction ts with
  | nil => intro init h; exact h
  | cons s ts ih => intro init _; exact ih _ (toggleStyle_inv s init)

/-- C10: from the initial style set, any toggle sequence keeps the active list
nonempty with NEUTRAL active exactly on the neutral singleton; toggling
NEUTRAL resets the list, toggling an inactive non-neutral style yields a list
without NEUTRAL, and toggling the one remaining non-neutral style restores
the neutral singleton. -/
theorem toggleStyle_invariant (ts : List VoiceStyle) (s : VoiceStyle)
    (l m : List VoiceStyle) (hs : s ≠ VoiceStyle.NEUTRAL) (hm : s ∉ m)
    (hl : l.filter (fun x => x != VoiceStyle.NEUTRAL) = [s]) :
    styleInv (applyToggles ts [VoiceStyle.NEUTRAL]) ∧
    toggleStyle VoiceStyle.NEUTRAL m = [VoiceStyle.NEUTRAL] ∧
    VoiceStyle.NEUTRAL ∉ toggleStyle s m ∧
    toggleStyle s l = [VoiceStyle.NEUTRAL] := by
  refine ⟨applyToggles_inv ts _ ⟨List.cons_ne_nil _ _, by simp⟩, ?_, ?_, ?_⟩
  · simp [toggleStyle]
  · have hsf : s ∉ m.filter (fun x => x != VoiceStyle.NEUTRAL) :=
      fun hmem => hm (List.mem_filter.mp hmem).1
    have hc : (m.filter (fun x => x != VoiceStyle.NEUTRAL)).contains s =
        false := by
      simp only [List.contains, List.elem_eq_mem, decide_eq_false_iff_not]
      exact hsf
    simp only [toggleStyle, if_neg hs, hc]
    intro hmem
    rcases List.mem_append.mp hmem with h1 | h1
    · have := (List.mem_filter.mp h1).2
      simp at this
    · rw [List.mem_singleton] at h1
      exact hs h1.symm
  · simp only [toggleStyle, if_neg hs, hl]
    have hc : ([s] : List VoiceStyle).contains s = true := by
      simp [List.contains, List.elem_eq_mem]
    rw [if_pos hc]
    have hnext : ([s] : List VoiceStyle).filter (fun x => x != s) = [] := by
      simp
    rw [hnext]
    rfl

/-- Witness for C10 at a concrete toggle sequence and concrete lists. -/
theorem toggleStyle_invariant_witness :
    (VoiceStyle.HAPPY ≠ VoiceStyle.NEUTRAL ∧
      VoiceStyle.HAPPY ∉ [VoiceStyle.NEUTRAL] ∧
      [VoiceStyle.HAPPY].filter (fun x => x != VoiceStyle.NEUTRAL) =
        [VoiceStyle.HAPPY]) ∧
    (styleInv (applyToggles [VoiceStyle.HAPPY] [VoiceStyle.NEUTRAL]) ∧
      toggleStyle VoiceStyle.NEUTRAL [VoiceStyle.NEUTRAL] =
        [VoiceStyle.NEUTRAL] ∧
      VoiceStyle.NEUTRAL ∉ toggleStyle VoiceStyle.HAPPY
        [VoiceStyle.NEUTRAL] ∧
      toggleStyle VoiceStyle.HAPPY [VoiceStyle.HAPPY] =
        [VoiceStyle.NEUTRAL]) := by
  have h1 : VoiceStyle.HAPPY ≠ VoiceStyle.NEUTRAL := by decide
  have h2 : VoiceStyle.HAPPY ∉ [VoiceStyle.NEUTRAL] := by decide
  have h3 : [VoiceStyle.HAPPY].filter (fun x => x != VoiceStyle.NEUTRAL) =
      [VoiceStyle.HAPPY] := by decide
  exact ⟨⟨h1, h2, h3⟩,
    toggleStyle_invariant [VoiceStyle.HAPPY] VoiceStyle.HAPPY
      [VoiceStyle.HAPPY] [VoiceStyle.NEUTRAL] h1 h2 h3⟩

lemma b64_table : ∀ v : Fin 64, b64Index (b64Char v.val) = some v.val := by
  decide

lemma b64Char_no_pad : ∀ v : Fin 64, b64Char v.val ≠ '=' := by
  decide

lemma b64Index_b64Char {v : ℕ} (h : v < 64) :
    b64Index (b64Char v) = some v :=
  b64_table ⟨v, h⟩

lemma b64Char_ne_pad {v : ℕ} (h : v < 64) : b64Char v ≠ '=' :=
  b64Char_no_pad ⟨v, h⟩

lemma decode_encode_aux : ∀ (x : List ℕ), (∀ b ∈ x, b < 256) →
    decode (encode x) = some x
  | [], _ => rfl
  | [a], h => by
    have ha : a < 256 := h a (by simp)
    have h1 := b64Index_b64Char (v := a / 4) (by omega)
    have h2 := b64Index_b64Char (v := a % 4 * 16) (by omega)
    simp [encode, decode, h1, h2]
    omega
  | [a, b], h => by
    have ha : a < 256 := h a (by simp)
    have hb : b < 256 := h b (by simp)
    have h1 := b64Index_b64Char (v := a / 4) (by omega)
    have h2 := b64Index_b64Char (v := a % 4 * 16 + b / 16) (by omega)
    have h3 := b64Index_b64Char (v := b % 16 * 4) (by omega)
    have hne := b64Char_ne_pad (v := b % 16 * 4) (by omega)
    simp [encode, decode, hne, h1, h2, h3]
    omega
  | a :: b :: c :: rest, h => by
    have ha : a < 256 := h a (by simp)
    have hb : b < 256 := h b (by simp)
    have hc : c < 256 := h c (by simp)
    have hr := decode_encode_aux rest (fun y hy => h y (by simp [hy]))
    have h1 := b64Index_b64Char (v := a / 4) (by omega)
    have h2 := b64Index_b64Char (v := a % 4 * 16 + b / 16) (by omega)
    have h3 := b64Index_b64Char (v := b % 16 * 4 + c / 64) (by omega)
    have h4 := b64Index_b64Char (v := c % 64) (by omega)
    have hne3 := b64Char_ne_pad (v := b % 16 * 4 + c / 64) (by omega)
    have hne4 := b64Char_ne_pad (v := c % 64) (by omega)
    simp [encode, decode, hne3, hne4, h1, h2, h3, h4, hr]
    omega

/-- C6: the Binary Codec satisfies decode(encode(x)) = x for every byte
sequence x, including the empty one (codec modelled from the spec, since
src/services/audioUtils.ts is not under src/). -/
theorem decode_encode_roundtrip (x : List ℕ) (hx : ∀ b ∈ x, b < 256) :
    decode (encode x) = some x :=
  decode_encode_aux x hx

/-- Witness for C6 at a five-byte sequence exercising a padded final group. -/
theorem decode_encode_roundtrip_witness :
    (∀ b ∈ ([77, 97, 110, 255, 0] : List ℕ), b < 256) ∧
    decode (encode ([77, 97, 110, 255, 0] : List ℕ)) =
      some [77, 97, 110, 255, 0] :=
  ⟨by decide, decode_encode_roundtrip _ (by decide)⟩

end SpeechModulation
